import Mathlib

/-!
Verification of the password security verification service of
`TargetedWebScrape`: the Supabase edge function
`supabase/functions/check-password/index.ts` (policy evaluator, k-anonymity
breach lookup client, response assembly) and the client-side helper
`src/utils/passwordValidation.ts` (`checkPassword`).

The TypeScript code is shallowly embedded: the `sha1` helper is modelled as a
SHA-1 implementation over the UTF-8 bytes of the input, rendered as uppercase
hex exactly as the source does; the `Deno.serve` handler becomes a pure
function from a parsed request plus a fetch oracle to a response paired with
the list of outbound requests it issued; JavaScript-specific behaviour
(truthiness of the empty string, `typeof` checks, `String.prototype.split`,
`parseInt`, UTF-16 `String.length`) is modelled explicitly.
-/

/-! ## SHA-1 (embedding of the `sha1` helper, lines 9-14 of index.ts) -/

/-- 2^32, the word modulus of SHA-1. -/
def pow32 : Nat := 4294967296

/-- Truncation to a 32-bit word. -/
def mask32 (n : Nat) : Nat := n % pow32

/-- 32-bit left rotation by `n` places. -/
def rotl (n x : Nat) : Nat := mask32 ((x <<< n) ||| (x >>> (32 - n)))

/-- UTF-8 encoding of a single character, as `TextEncoder().encode` produces. -/
def utf8EncodeChar (c : Char) : List Nat :=
  let n := c.toNat
  if n < 128 then [n]
  else if n < 2048 then [192 ||| (n >>> 6), 128 ||| (n &&& 63)]
  else if n < 65536 then
    [224 ||| (n >>> 12), 128 ||| ((n >>> 6) &&& 63), 128 ||| (n &&& 63)]
  else
    [240 ||| (n >>> 18), 128 ||| ((n >>> 12) &&& 63), 128 ||| ((n >>> 6) &&& 63),
     128 ||| (n &&& 63)]

/-- UTF-8 bytes of a string (`new TextEncoder().encode(message)`). -/
def utf8Encode (s : String) : List Nat := s.data.flatMap utf8EncodeChar

/-- SHA-1 padding: append `0x80`, zero bytes to reach 56 mod 64, then the
bit length as a 64-bit big-endian integer. -/
def sha1Pad (msg : List Nat) : List Nat :=
  let len := msg.length
  let zeros := (119 - len % 64) % 64
  msg ++ [128] ++ List.replicate zeros 0 ++
    (List.range 8).map (fun i => ((8 * len) >>> (8 * (7 - i))) &&& 255)

/-- The big-endian 32-bit word starting at byte `4*i` of the padded message. -/
def wordAt (bytes : List Nat) (i : Nat) : Nat :=
  (bytes.getD (4 * i) 0) <<< 24 ||| (bytes.getD (4 * i + 1) 0) <<< 16 |||
    (bytes.getD (4 * i + 2) 0) <<< 8 ||| bytes.getD (4 * i + 3) 0

/-- Extend the 16 block words to the 80-word message schedule. -/
def sha1Schedule (ws : Array Nat) : Array Nat :=
  (List.range 64).foldl (fun w _ =>
    let t := w.size
    w.push (rotl 1 ((w.getD (t - 3) 0) ^^^ (w.getD (t - 8) 0) ^^^
      (w.getD (t - 14) 0) ^^^ (w.getD (t - 16) 0)))) ws

/-- The SHA-1 round function for round `i`. -/
def sha1F (i b c d : Nat) : Nat :=
  if i < 20 then (b &&& c) ||| ((b ^^^ 4294967295) &&& d)
  else if i < 40 then b ^^^ c ^^^ d
  else if i < 60 then (b &&& c) ||| (b &&& d) ||| (c &&& d)
  else b ^^^ c ^^^ d

/-- The SHA-1 round constant for round `i`. -/
def sha1K (i : Nat) : Nat :=
  if i < 20 then 1518500249
  else if i < 40 then 1859775393
  else if i < 60 then 2400959708
  else 3395469782

/-- The five 32-bit chaining words of SHA-1. -/
structure Sha1State where
  a : Nat
  b : Nat
  c : Nat
  d : Nat
  e : Nat
  deriving Repr, DecidableEq

/-- The SHA-1 initial state. -/
def sha1Init : Sha1State :=
  ⟨1732584193, 4023233417, 2562383102, 271733878, 3285377520⟩

/-- Compress one 64-byte block (given as its 80-word schedule) into the state. -/
def sha1Block (st : Sha1State) (w : Array Nat) : Sha1State :=
  let fin := (List.range 80).foldl (fun (s : Sha1State) i =>
    let t := mask32 (rotl 5 s.a + sha1F i s.b s.c s.d + s.e + sha1K i + w.getD i 0)
    ⟨t, s.a, rotl 30 s.b, s.c, s.d⟩) st
  ⟨mask32 (st.a + fin.a), mask32 (st.b + fin.b), mask32 (st.c + fin.c),
   mask32 (st.d + fin.d), mask32 (st.e + fin.e)⟩

/-- Big-endian bytes of a 32-bit word. -/
def wordBytes (x : Nat) : List Nat :=
  [(x >>> 24) &&& 255, (x >>> 16) &&& 255, (x >>> 8) &&& 255, x &&& 255]

/-- The 20-byte SHA-1 digest of a byte sequence. -/
def sha1Bytes (msg : List Nat) : List Nat :=
  let padded := sha1Pad msg
  let n := padded.length / 64
  let fin := (List.range n).foldl (fun st j =>
    sha1Block st (sha1Schedule
      ((List.range 16).foldl (fun a k => a.push (wordAt padded (16 * j + k))) #[]))) sha1Init
  wordBytes fin.a ++ wordBytes fin.b ++ wordBytes fin.c ++ wordBytes fin.d ++
    wordBytes fin.e

/-- Lowercase hexadecimal digit, as `Number.prototype.toString(16)` emits. -/
def hexDigitLower (n : Nat) : Char :=
  if n < 10 then Char.ofNat (48 + n) else Char.ofNat (87 + n)

/-- `b.toString(16).padStart(2, '0')` for a byte `b < 256`. -/
def byteToHexPadded (b : Nat) : String :=
  String.mk [hexDigitLower (b / 16 % 16), hexDigitLower (b % 16)]

/-- `String.prototype.toUpperCase` restricted to ASCII (hex digests are ASCII). -/
def toUpperJs (s : String) : String := String.mk (s.data.map Char.toUpper)

/-- The source's `sha1`: UTF-8 encode, digest, lowercase hex per byte joined,
then `toUpperCase()`. -/
def sha1HexJs (s : String) : String :=
  toUpperJs (String.join ((sha1Bytes (utf8Encode s)).map byteToHexPadded))

set_option maxRecDepth 10000

/-- FIPS 180 test vector: one-block message. -/
example : sha1HexJs "abc" = "A9993E364706816ABA3E25717850C26C9CD0D89D" := by
  decide

/-- FIPS 180 test vector: 56-byte message, whose padding spills into a
second block, exercising the 64-bit length field of `sha1Pad`. -/
example : sha1HexJs "abcdbcdecdefdefgefghfghighijhijkijkljklmklmnlmnomnopnopq" =
    "84983E441C3BD26EBAAE4AA1F95129E5E54670F1" := by
  decide

/-! ## JavaScript string primitives used by the handler -/

/-- UTF-16 code-unit count of a character (`String.prototype.length` counts
code units, so astral characters count twice). -/
def utf16Size (c : Char) : Nat := if c.toNat < 65536 then 1 else 2

/-- JavaScript `String.prototype.length`: the UTF-16 code-unit count. -/
def jsLength (s : String) : Nat := (s.data.map utf16Size).sum

/-- Whitespace for `trim` / `parseInt` (the ASCII cases that can occur here). -/
def isJsWhitespace (c : Char) : Bool :=
  c == ' ' || c == '\t' || c == '\n' || c == '\r'

/-- JavaScript `String.prototype.trim`. -/
def trimJs (s : String) : String :=
  String.mk ((s.data.dropWhile isJsWhitespace).reverse.dropWhile isJsWhitespace).reverse

/-- Helper for `splitOnChar`: accumulates the current field in reverse. -/
def splitOnCharAux (sep : Char) : List Char → List Char → List String
  | [], acc => [String.mk acc.reverse]
  | c :: rest, acc =>
    if c == sep then String.mk acc.reverse :: splitOnCharAux sep rest []
    else splitOnCharAux sep rest (c :: acc)

/-- JavaScript `String.prototype.split` with a one-character separator. -/
def splitOnChar (sep : Char) (s : String) : List String :=
  splitOnCharAux sep s.data []

/-- JavaScript `parseInt` in base 10: optional sign, longest digit run;
`none` models `NaN` (no digits at all). -/
def parseIntJs (s : String) : Option Int :=
  let cs := s.data.dropWhile isJsWhitespace
  let signed : Int × List Char :=
    match cs with
    | '-' :: rest => (-1, rest)
    | '+' :: rest => (1, rest)
    | _ => (1, cs)
  let ds := signed.2.takeWhile (fun c => 48 ≤ c.toNat && c.toNat ≤ 57)
  if ds.isEmpty then none
  else some (signed.1 * Int.ofNat (ds.foldl (fun a c => 10 * a + (c.toNat - 48)) 0))

/-- JavaScript `String.prototype.toLowerCase` restricted to ASCII (all
deny-list entries are ASCII). -/
def toLowerJs (s : String) : String := String.mk (s.data.map Char.toLower)

/-! ## Policy evaluator (lines 38-65 of index.ts) -/

/-- The regex `/[A-Z]/.test(password)`. -/
def hasUppercase (p : String) : Bool :=
  p.data.any (fun c => 65 ≤ c.toNat && c.toNat ≤ 90)

/-- The regex `/[a-z]/.test(password)`. -/
def hasLowercase (p : String) : Bool :=
  p.data.any (fun c => 97 ≤ c.toNat && c.toNat ≤ 122)

/-- The regex `/[0-9]/.test(password)`. -/
def hasDigitChar (p : String) : Bool :=
  p.data.any (fun c => 48 ≤ c.toNat && c.toNat ≤ 57)

/-- Membership in `[A-Za-z0-9]`. -/
def isAsciiAlnum (c : Char) : Bool :=
  (65 ≤ c.toNat && c.toNat ≤ 90) || (97 ≤ c.toNat && c.toNat ≤ 122) ||
    (48 ≤ c.toNat && c.toNat ≤ 57)

/-- The regex `/[^A-Za-z0-9]/.test(password)`. -/
def hasSpecialChar (p : String) : Bool := p.data.any (fun c => !isAsciiAlnum c)

/-- The fixed deny-list `commonPasswords` of index.ts. -/
def commonPasswords : List String :=
  ["password", "password123", "12345678", "qwerty", "abc123",
   "monkey", "1234567", "letmein", "trustno1", "dragon",
   "baseball", "iloveyou", "master", "sunshine", "ashley",
   "welcome", "admin", "root", "123456789", "12345678910"]

def lengthIssueMsg : String := "Password must be at least 12 characters long"

def upperIssueMsg : String := "Password must contain at least one uppercase letter"

def lowerIssueMsg : String := "Password must contain at least one lowercase letter"

def numberIssueMsg : String := "Password must contain at least one number"

def specialIssueMsg : String := "Password must contain at least one special character"

def commonIssueMsg : String := "This password is too common and easily guessed"

/-- The `strengthIssues` array exactly as the handler pushes entries. -/
def strengthIssues (p : String) : List String :=
  (if jsLength p < 12 then [lengthIssueMsg] else []) ++
  (if !hasUppercase p then [upperIssueMsg] else []) ++
  (if !hasLowercase p then [lowerIssueMsg] else []) ++
  (if !hasDigitChar p then [numberIssueMsg] else []) ++
  (if !hasSpecialChar p then [specialIssueMsg] else []) ++
  (if commonPasswords.contains (toLowerJs p) then [commonIssueMsg] else [])

/-! ## Request/response model of the `Deno.serve` handler -/

/-- Parsed JSON values, as `await req.json()` can produce them. -/
inductive JsValue where
  | null
  | bool (b : Bool)
  | num (n : Int)
  | str (s : String)
  | arr (elems : List JsValue)
  | obj (fields : List (String × JsValue))

/-- One inbound request to the edge function: an OPTIONS pre-flight, a POST
whose body failed to parse as JSON (`req.json()` rejects with the given
message), or a POST with a parsed JSON body. -/
inductive RequestInput where
  | options
  | invalidJson (msg : String)
  | post (body : JsValue)

/-- Property read `body.password` on a JSON object (last duplicate key wins,
as in `JSON.parse`); `none` models `undefined`. -/
def lookupPassword (fields : List (String × JsValue)) : Option JsValue :=
  fields.foldl (fun acc f => if f.1 == "password" then some f.2 else acc) none

/-- `const { password } = body`: destructuring from `null` throws; from an
object it reads the property; from any other value it yields `undefined`
(modelled as `none`). -/
def destructurePassword : JsValue → Except String (Option JsValue)
  | JsValue.null => Except.error "Cannot destructure property of null"
  | JsValue.obj fields => Except.ok (lookupPassword fields)
  | _ => Except.ok none

/-- The outbound fetch: URL plus request headers. -/
structure OutboundRequest where
  url : String
  headers : List (String × String)
  deriving Repr, DecidableEq

/-- Outcome of the outbound `fetch`: the promise rejects (network failure,
which the handler's `catch` sees as a thrown error), or an HTTP response
with a status and a body text. -/
inductive FetchResult where
  | netFailure (msg : String)
  | http (status : Nat) (body : String)

/-- The JSON response of the edge function: HTTP status plus the fields the
handler serializes. `none` means the field is absent from the JSON body.
`breachCount = some none` models serializing `NaN` (JSON `null`). -/
structure ApiResponse where
  status : Nat
  error : Option String := none
  details : Option String := none
  isBreached : Option Bool := none
  isWeak : Option Bool := none
  issues : Option (List String) := none
  breachCount : Option (Option Int) := none
  apiError : Option Bool := none
  message : Option String := none
  deriving Repr, DecidableEq

/-- Response to the OPTIONS pre-flight (status 200, no body). -/
def corsPreflightResponse : ApiResponse := { status := 200 }

/-- The catch-all 500 response. -/
def internalErrorResponse (msg : String) : ApiResponse :=
  { status := 500, error := some "Internal server error", details := some msg }

/-- The 400 response for a missing/empty/non-string password. -/
def badRequestResponse : ApiResponse :=
  { status := 400, error := some "Password is required" }

/-- The 200 response when local policy found issues. -/
def weakResponse (issues : List String) : ApiResponse :=
  { status := 200, isBreached := some false, isWeak := some true, issues := some issues }

/-- The degraded 200 response when the breach API returned a non-ok status. -/
def degradedResponse : ApiResponse :=
  { status := 200, isBreached := some false, isWeak := some false,
    apiError := some true,
    message := some "Unable to check password breach status, but password meets strength requirements" }

/-- The 200 response when the suffix was found in the breach corpus. -/
def breachedResponse (count : Option Int) : ApiResponse :=
  { status := 200, isBreached := some true, isWeak := some false,
    breachCount := some count,
    message := some "This password has been exposed in a data breach" }

/-- The 200 response when the suffix was not found. -/
def secureResponse : ApiResponse :=
  { status := 200, isBreached := some false, isWeak := some false,
    message := some "Password is secure" }

/-- The suffix scan (lines 117-133): for each line, split on `:`; on an exact
match of the first field against the locally computed suffix, parse the count
(`count.trim()` throws if the line had no `:`, hence the `Except`); otherwise
keep scanning. `ok none` = clean, `ok (some c)` = breached with count `c`. -/
def scanSuffixes (lines : List String) (sfx : String) : Except String (Option (Option Int)) :=
  match lines with
  | [] => Except.ok none
  | line :: rest =>
    let parts := splitOnChar ':' line
    if parts.headD "" = sfx then
      match parts.get? 1 with
      | none => Except.error "Cannot read properties of undefined"
      | some countStr => Except.ok (some (parseIntJs (trimJs countStr)))
    else scanSuffixes rest sfx

/-- The outbound request the handler issues for password `p`: keyed by the
5-character digest prefix only, asking for padded responses. -/
def outboundRequestFor (p : String) : OutboundRequest :=
  { url := "https://api.pwnedpasswords.com/range/" ++ String.mk ((sha1HexJs p).data.take 5),
    headers := [("Add-Padding", "true")] }

/-- The `Deno.serve` handler as a pure function of the parsed request and a
fetch oracle. Returns the response together with the list of outbound
requests issued (in order), so that claims about what goes over the network
are statable. -/
def handle (input : RequestInput) (fetchFn : OutboundRequest → FetchResult) :
    ApiResponse × List OutboundRequest :=
  match input with
  | RequestInput.options => (corsPreflightResponse, [])
  | RequestInput.invalidJson msg => (internalErrorResponse msg, [])
  | RequestInput.post body =>
    match destructurePassword body with
    | Except.error msg => (internalErrorResponse msg, [])
    | Except.ok pwField =>
      match pwField with
      | some (JsValue.str p) =>
        if p = "" then (badRequestResponse, [])
        else
          let issues := strengthIssues p
          if issues.length > 0 then (weakResponse issues, [])
          else
            let hash := sha1HexJs p
            let sfx := String.mk (hash.data.drop 5)
            let req := outboundRequestFor p
            match fetchFn req with
            | FetchResult.netFailure msg => (internalErrorResponse msg, [req])
            | FetchResult.http st bodyText =>
              if st < 200 || 300 ≤ st then (degradedResponse, [req])
              else
                match scanSuffixes (splitOnChar '\n' bodyText) sfx with
                | Except.error msg => (internalErrorResponse msg, [req])
                | Except.ok (some cnt) => (breachedResponse cnt, [req])
                | Except.ok none => (secureResponse, [req])
      | _ => (badRequestResponse, [])

/-- Convenience: a POST whose JSON body is `{"password": p}`. -/
def postPassword (p : String) : RequestInput :=
  RequestInput.post (JsValue.obj [("password", JsValue.str p)])

/-! ## Client-side helper `checkPassword` (src/utils/passwordValidation.ts) -/

/-- The client-side `PasswordCheckResult` interface. -/
structure PasswordCheckResult where
  isBreached : Bool
  isWeak : Bool
  breachCount : Option Int := none
  issues : Option (List String) := none
  message : String
  apiError : Option Bool := none
  deriving Repr, DecidableEq

/-- Outcome of the client's `fetch` of the edge function: the call itself
fails at transport level, or an HTTP response arrives with a status and a
body; `none` for the body models `response.json()` rejecting. -/
inductive ClientOutcome where
  | transportFailure
  | httpResponse (status : Nat) (body : Option PasswordCheckResult)

/-- The result `checkPassword`'s catch synthesizes on any failure. -/
def clientFallbackResult : PasswordCheckResult :=
  { isBreached := false, isWeak := false,
    message := "Unable to verify password security", apiError := some true }

/-- The client helper `checkPassword`, as a total function of the fetch
outcome: a non-ok status throws inside the `try` and is caught, a transport
failure or JSON-parse failure is caught, everything maps to a
`PasswordCheckResult` — the function never throws by construction. -/
def checkPassword (outcome : ClientOutcome) : PasswordCheckResult :=
  match outcome with
  | ClientOutcome.transportFailure => clientFallbackResult
  | ClientOutcome.httpResponse st body =>
    if st < 200 || 300 ≤ st then clientFallbackResult
    else
      match body with
      | none => clientFallbackResult
      | some r => r

/-! ## Helper lemmas shared by the claim theorems -/

/-- If local policy found any issue, the handler answers with the weak
response and issues no outbound request. -/
theorem handle_weak_of_issues (p : String) (fetchFn : OutboundRequest → FetchResult)
    (hne : p ≠ "") (h : strengthIssues p ≠ []) :
    handle (postPassword p) fetchFn = (weakResponse (strengthIssues p), []) := by
  have hl : 0 < (strengthIssues p).length := List.length_pos.mpr h
  simp [handle, postPassword, destructurePassword, lookupPassword, hne, hl]

/-- If local policy found no issue, the handler's behaviour is exactly the
breach-lookup continuation applied to the fetch oracle's answer. -/
theorem handle_of_policy_pass (p : String) (fetchFn : OutboundRequest → FetchResult)
    (hne : p ≠ "") (h : strengthIssues p = []) :
    handle (postPassword p) fetchFn =
      match fetchFn (outboundRequestFor p) with
      | FetchResult.netFailure msg => (internalErrorResponse msg, [outboundRequestFor p])
      | FetchResult.http st bodyText =>
        if st < 200 || 300 ≤ st then (degradedResponse, [outboundRequestFor p])
        else
          match scanSuffixes (splitOnChar '\n' bodyText)
              (String.mk ((sha1HexJs p).data.drop 5)) with
          | Except.error msg => (internalErrorResponse msg, [outboundRequestFor p])
          | Except.ok (some cnt) => (breachedResponse cnt, [outboundRequestFor p])
          | Except.ok none => (secureResponse, [outboundRequestFor p]) := by
  simp [handle, postPassword, destructurePassword, lookupPassword, hne, h, outboundRequestFor]

/-- A password passing local policy triggers exactly one outbound request,
regardless of what the fetch oracle answers. -/
theorem handle_calls_of_policy_pass (p : String) (fetchFn : OutboundRequest → FetchResult)
    (hne : p ≠ "") (h : strengthIssues p = []) :
    (handle (postPassword p) fetchFn).2 = [outboundRequestFor p] := by
  rw [handle_of_policy_pass p fetchFn hne h]
  cases fetchFn (outboundRequestFor p) with
  | netFailure msg => rfl
  | http st bodyText =>
    by_cases hst : st < 200 || 300 ≤ st
    · simp [hst]
    · simp only [hst]
      cases hscan : scanSuffixes (splitOnChar '\n' bodyText)
          (String.mk ((sha1HexJs p).data.drop 5)) with
      | error msg => simp [hst, hscan]
      | ok o => cases o <;> simp [hst, hscan]

/-- Every response of the handler either has no `breachCount` or reports
`isWeak = false`. -/
theorem handle_breachCount_shape (input : RequestInput)
    (fetchFn : OutboundRequest → FetchResult) :
    (handle input fetchFn).1.breachCount = none ∨
      (handle input fetchFn).1.isWeak = some false := by
  unfold handle
  repeat'
    first
    | split
    | simp [corsPreflightResponse, internalErrorResponse, badRequestResponse,
        weakResponse, degradedResponse, breachedResponse, secureResponse]

/-- An `if`-guarded singleton prepended to a sublist stays a sublist. -/
theorem sublist_if_cons {α : Type} {c : Prop} [Decidable c] (x : α) {l1 l2 : List α}
    (h : l1.Sublist l2) : ((if c then [x] else []) ++ l1).Sublist (x :: l2) := by
  split
  · exact List.Sublist.cons₂ x h
  · exact List.Sublist.cons x h

/-- An `if`-guarded singleton is a sublist of the singleton. -/
theorem sublist_if_singleton {α : Type} {c : Prop} [Decidable c] (x : α) :
    (if c then [x] else []).Sublist [x] := by
  split
  · exact List.Sublist.refl [x]
  · exact List.nil_sublist [x]

/-! ## Claim theorems -/

/-- C2: if the policy evaluator produces at least one issue, the handler
returns immediately with `isWeak = true`, the issues list populated,
`isBreached = false`, and performs no breach lookup (no outbound request);
and in every response of the handler, `breachCount` is only populated when
`isWeak` is `false`. -/
theorem c2_weak_short_circuits_lookup :
    (∀ (p : String) (fetchFn : OutboundRequest → FetchResult),
      p ≠ "" → strengthIssues p ≠ [] →
      handle (postPassword p) fetchFn = (weakResponse (strengthIssues p), [])) ∧
    (∀ (input : RequestInput) (fetchFn : OutboundRequest → FetchResult),
      ((handle input fetchFn).1.breachCount).isSome = true →
      (handle input fetchFn).1.isWeak = some false) ∧
    (∀ issues, (weakResponse issues).isWeak = some true ∧
      (weakResponse issues).isBreached = some false ∧
      (weakResponse issues).issues = some issues) := by
  refine ⟨handle_weak_of_issues, ?_, fun issues => ⟨rfl, rfl, rfl⟩⟩
  intro input fetchFn h
  rcases handle_breachCount_shape input fetchFn with h1 | h1
  · rw [h1] at h
    simp at h
  · exact h1

/-- Witness for C2 at the short weak password `"short1!"`. -/
theorem c2_weak_short_circuits_lookup_witness :
    handle (postPassword "short1!") (fun _ => FetchResult.http 200 "") =
      (weakResponse (strengthIssues "short1!"), []) :=
  c2_weak_short_circuits_lookup.1 "short1!" (fun _ => FetchResult.http 200 "")
    (by decide) (by decide)

/-- C7: deny-list membership is case-insensitive — whenever the lowercased
input is on the deny-list, the common-password issue is produced. -/
theorem c7_denylist_case_insensitive (p : String)
    (h : commonPasswords.contains (toLowerJs p) = true) :
    commonIssueMsg ∈ strengthIssues p := by
  simp [strengthIssues, h]
  exact Or.inr (Or.inr (Or.inr (Or.inr (Or.inr (by simpa using h)))))

/-- Witness for C7: the input `"Password"` triggers the common-password
issue for the deny-list entry `"password"`. -/
theorem c7_denylist_case_insensitive_witness :
    commonIssueMsg ∈ strengthIssues "Password" :=
  c7_denylist_case_insensitive "Password" (by decide)

/-- C8: a POST whose JSON body carries no string `password` property
(missing or non-string — the body `{}` included) gets a 400 response with
exactly the payload `{"error": "Password is required"}`, and no outbound
request is made. -/
theorem c8_missing_password_400 (fields : List (String × JsValue))
    (fetchFn : OutboundRequest → FetchResult)
    (h : ∀ s : String, lookupPassword fields ≠ some (JsValue.str s)) :
    handle (RequestInput.post (JsValue.obj fields)) fetchFn = (badRequestResponse, []) ∧
    badRequestResponse = { status := 400, error := some "Password is required" } := by
  refine ⟨?_, rfl⟩
  cases hv : lookupPassword fields with
  | none => simp [handle, destructurePassword, hv]
  | some jv =>
    cases jv with
    | str s => exact absurd hv (h s)
    | null => simp [handle, destructurePassword, hv]
    | bool b => simp [handle, destructurePassword, hv]
    | num n => simp [handle, destructurePassword, hv]
    | arr es => simp [handle, destructurePassword, hv]
    | obj fs => simp [handle, destructurePassword, hv]

/-- Witness for C8: POSTing `{}` yields the 400 error payload. -/
theorem c8_missing_password_400_witness :
    handle (RequestInput.post (JsValue.obj [])) (fun _ => FetchResult.http 200 "") =
      (badRequestResponse, []) ∧
    badRequestResponse = { status := 400, error := some "Password is required" } :=
  c8_missing_password_400 [] (fun _ => FetchResult.http 200 "")
    (fun _ h => Option.noConfusion h)

/-- C9: the client-side `checkPassword` is a total function of the fetch
outcome (it never throws by construction); on a transport failure, a non-ok
HTTP status, or an unparseable body it returns the synthesized fallback
result with `apiError = true`, `isBreached = false`, `isWeak = false`, and
on a successful JSON response it returns that result. -/
theorem c9_client_nonthrowing :
    (checkPassword ClientOutcome.transportFailure = clientFallbackResult) ∧
    (∀ (st : Nat) (body : Option PasswordCheckResult), st < 200 ∨ 300 ≤ st →
      checkPassword (ClientOutcome.httpResponse st body) = clientFallbackResult) ∧
    (∀ st : Nat, 200 ≤ st → st < 300 →
      checkPassword (ClientOutcome.httpResponse st none) = clientFallbackResult) ∧
    (∀ (st : Nat) (r : PasswordCheckResult), 200 ≤ st → st < 300 →
      checkPassword (ClientOutcome.httpResponse st (some r)) = r) ∧
    (clientFallbackResult.apiError = some true ∧ clientFallbackResult.isBreached = false ∧
      clientFallbackResult.isWeak = false) := by
  refine ⟨rfl, ?_, ?_, ?_, ⟨rfl, rfl, rfl⟩⟩
  · intro st body h
    rcases h with h | h <;> simp [checkPassword, h]
  · intro st h1 h2
    simp [checkPassword, Nat.not_lt.mpr h1, Nat.not_le.mpr h2]
  · intro st r h1 h2
    simp [checkPassword, Nat.not_lt.mpr h1, Nat.not_le.mpr h2]

/-- Witness for C9 at a 500 response and at a successful 200 response. -/
theorem c9_client_nonthrowing_witness :
    checkPassword (ClientOutcome.httpResponse 500 none) = clientFallbackResult ∧
    checkPassword (ClientOutcome.httpResponse 200 (some clientFallbackResult)) =
      clientFallbackResult :=
  ⟨c9_client_nonthrowing.2.1 500 none (Or.inr (by decide)),
   c9_client_nonthrowing.2.2.2.1 200 clientFallbackResult (by decide) (by decide)⟩

/-- C10: for every password the issues list is a sublist of the fixed
sequence length / uppercase / lowercase / digit / special / common — so the
entries appear in that order, each rule contributes at most one entry, and
the list has at most six entries. -/
theorem c10_issue_order (p : String) :
    (strengthIssues p).Sublist
      [lengthIssueMsg, upperIssueMsg, lowerIssueMsg, numberIssueMsg,
       specialIssueMsg, commonIssueMsg] ∧
    (strengthIssues p).length ≤ 6 := by
  have hs : (strengthIssues p).Sublist
      [lengthIssueMsg, upperIssueMsg, lowerIssueMsg, numberIssueMsg,
       specialIssueMsg, commonIssueMsg] := by
    unfold strengthIssues
    simp only [List.append_assoc]
    apply sublist_if_cons
    apply sublist_if_cons
    apply sublist_if_cons
    apply sublist_if_cons
    apply sublist_if_cons
    apply sublist_if_singleton
  exact ⟨hs, by simpa using hs.length_le⟩

/-- C1 counterexample: for the policy-compliant password `"Xy9!abcdefgh"`,
when the network call itself fails (the fetch promise rejects), the handler's
top-level catch returns the 500 internal-error response — not a 200 with
`apiError = true`. This refutes the claim that an unreachable remote service
is recovered into a 200 and that the service never returns a 500. -/
theorem c1_counterexample_network_failure_is_500 :
    handle (postPassword "Xy9!abcdefgh") (fun _ => FetchResult.netFailure "Failed to fetch") =
      (internalErrorResponse "Failed to fetch", [outboundRequestFor "Xy9!abcdefgh"]) ∧
    (internalErrorResponse "Failed to fetch").status = 500 ∧
    (internalErrorResponse "Failed to fetch").apiError = none ∧
    (500 : Nat) ≠ 200 := by
  refine ⟨?_, rfl, rfl, by decide⟩
  exact handle_of_policy_pass "Xy9!abcdefgh"
    (fun _ => FetchResult.netFailure "Failed to fetch") (by decide) (by decide)

/-- C1 amended: for every password that passes all local policy rules, a
non-success HTTP status (outside 200–299) from the remote breach service is
recovered into a 200 response with `apiError = true`, `isBreached = false`,
`isWeak = false`; but a failure of the network call itself propagates to the
handler's catch-all, which returns a 500 internal-error response. -/
theorem c1_amended_degraded_on_bad_status (p : String)
    (hne : p ≠ "") (hp : strengthIssues p = []) :
    (∀ (st : Nat) (bodyText : String), st < 200 ∨ 300 ≤ st →
      handle (postPassword p) (fun _ => FetchResult.http st bodyText) =
        (degradedResponse, [outboundRequestFor p])) ∧
    (∀ msg : String, handle (postPassword p) (fun _ => FetchResult.netFailure msg) =
      (internalErrorResponse msg, [outboundRequestFor p])) ∧
    (degradedResponse.status = 200 ∧ degradedResponse.apiError = some true ∧
      degradedResponse.isBreached = some false ∧ degradedResponse.isWeak = some false) ∧
    (internalErrorResponse "Failed to fetch").status = 500 := by
  refine ⟨?_, ?_, ⟨rfl, rfl, rfl, rfl⟩, rfl⟩
  · intro st bodyText hst
    rw [handle_of_policy_pass p (fun _ => FetchResult.http st bodyText) hne hp]
    rcases hst with h | h <;> simp [h]
  · intro msg
    exact handle_of_policy_pass p (fun _ => FetchResult.netFailure msg) hne hp

/-- Witness for the amended C1 at `"Xy9!abcdefgh"` with a 503 status and
with a failing network call. -/
theorem c1_amended_degraded_on_bad_status_witness :
    handle (postPassword "Xy9!abcdefgh") (fun _ => FetchResult.http 503 "") =
      (degradedResponse, [outboundRequestFor "Xy9!abcdefgh"]) ∧
    handle (postPassword "Xy9!abcdefgh") (fun _ => FetchResult.netFailure "down") =
      (internalErrorResponse "down", [outboundRequestFor "Xy9!abcdefgh"]) :=
  ⟨(c1_amended_degraded_on_bad_status "Xy9!abcdefgh" (by decide) (by decide)).1
      503 "" (Or.inr (by decide)),
   (c1_amended_degraded_on_bad_status "Xy9!abcdefgh" (by decide) (by decide)).2.1 "down"⟩

/-- C3 counterexample: the claim's test vector is wrong — the SHA-1 hex
digest of `"password"` is not the claimed 39-character string
`5BAA61E4C9B93F3F0682250B6CF8331B7EE68FD` (it is that string with a final
`8`), and scanning a stub response containing the claimed line
`1E4C9B93F3F0682250B6CF8331B7EE68FD:3730471` against the locally computed
suffix of `"password"` comes back clean, not breached. -/
theorem c3_counterexample_wrong_digest :
    sha1HexJs "password" ≠ "5BAA61E4C9B93F3F0682250B6CF8331B7EE68FD" ∧
    scanSuffixes ["1E4C9B93F3F0682250B6CF8331B7EE68FD:3730471"]
      (String.mk ((sha1HexJs "password").data.drop 5)) = Except.ok none :=
  ⟨by decide, rfl⟩

/-- C3 amended: breach-suffix matching is exact and case-sensitive on the
hex suffix. `"password"` has SHA-1 hex digest
`5BAA61E4C9B93F3F0682250B6CF8331B7EE68FD8` (40 hex characters), split into
the 5-character request key `5BAA6` and the 35-character suffix
`1E4C9B93F3F0682250B6CF8331B7EE68FD8`; a stub response containing the line
`1E4C9B93F3F0682250B6CF8331B7EE68FD8:3730471` matches with count 3730471,
while the same line lowercased does not match. End to end, for the
policy-compliant password `"Xy9!abcdefgh"` a stub response containing its
digest suffix yields the breached response with the line's count, and a
stub response with other suffixes yields the clean response. -/
theorem c3_amended_suffix_match_exact :
    sha1HexJs "password" = "5BAA61E4C9B93F3F0682250B6CF8331B7EE68FD8" ∧
    String.mk ((sha1HexJs "password").data.take 5) = "5BAA6" ∧
    String.mk ((sha1HexJs "password").data.drop 5) =
      "1E4C9B93F3F0682250B6CF8331B7EE68FD8" ∧
    scanSuffixes ["1E4C9B93F3F0682250B6CF8331B7EE68FD8:3730471"]
      (String.mk ((sha1HexJs "password").data.drop 5)) =
      Except.ok (some (some 3730471)) ∧
    scanSuffixes ["1e4c9b93f3f0682250b6cf8331b7ee68fd8:3730471"]
      (String.mk ((sha1HexJs "password").data.drop 5)) = Except.ok none ∧
    (handle (postPassword "Xy9!abcdefgh")
      (fun _ => FetchResult.http 200
        "AAAA:1\nFC8FFAE1587D9366C8CE0B581FD91302CF0:42")).1 =
        breachedResponse (some 42) ∧
    (handle (postPassword "Xy9!abcdefgh")
      (fun _ => FetchResult.http 200 "AAAA:1\nBBBB:2")).1 = secureResponse :=
  ⟨by decide, by decide, by decide, rfl, rfl, by decide, by decide⟩

/-- C4 counterexample: the empty string is not accepted by the policy
evaluator stage — JavaScript's `!password` treats `""` as missing, so the
handler answers 400 `Password is required` with no `isWeak` field, not a
200 with `isWeak = true` and a length complaint. -/
theorem c4_counterexample_empty_string_is_400 :
    handle (postPassword "") (fun _ => FetchResult.http 200 "") =
      (badRequestResponse, []) ∧
    badRequestResponse.status = 400 ∧ badRequestResponse.isWeak = none ∧
    badRequestResponse.issues = none := by
  refine ⟨by decide, rfl, rfl, rfl⟩

/-- C4 amended: every nonempty password shorter than 12 characters gets a
200 response with `isWeak = true` and an issues list containing the length
complaint, regardless of character composition; the empty string instead
gets the 400 `Password is required` response, because the handler's
presence check treats the empty string as missing. -/
theorem c4_amended_short_password_weak (p : String)
    (fetchFn : OutboundRequest → FetchResult)
    (hne : p ≠ "") (hlen : jsLength p < 12) :
    handle (postPassword p) fetchFn = (weakResponse (strengthIssues p), []) ∧
    lengthIssueMsg ∈ strengthIssues p ∧
    (weakResponse (strengthIssues p)).status = 200 ∧
    (weakResponse (strengthIssues p)).isWeak = some true ∧
    handle (postPassword "") fetchFn = (badRequestResponse, []) := by
  have hmem : lengthIssueMsg ∈ strengthIssues p := by
    unfold strengthIssues
    simp [hlen]
  have hiss : strengthIssues p ≠ [] := by
    intro he
    rw [he] at hmem
    exact absurd hmem (List.not_mem_nil _)
  refine ⟨handle_weak_of_issues p fetchFn hne hiss, hmem, rfl, rfl, ?_⟩
  simp [handle, postPassword, destructurePassword, lookupPassword]

/-- Witness for the amended C4 at the short digit-free password `"abc"`. -/
theorem c4_amended_short_password_weak_witness :
    handle (postPassword "abc") (fun _ => FetchResult.http 200 "") =
      (weakResponse (strengthIssues "abc"), []) ∧
    lengthIssueMsg ∈ strengthIssues "abc" ∧
    (weakResponse (strengthIssues "abc")).status = 200 ∧
    (weakResponse (strengthIssues "abc")).isWeak = some true ∧
    handle (postPassword "") (fun _ => FetchResult.http 200 "") =
      (badRequestResponse, []) :=
  c4_amended_short_password_weak "abc" (fun _ => FetchResult.http 200 "")
    (by decide) (by decide)

/-- C5: for every password reaching the breach lookup, the single outbound
request is keyed only by the 5-character hex digest prefix — its URL is the
range endpoint plus that prefix — so any two policy-passing passwords whose
digests share the first 5 hex characters produce identical outbound
requests. -/
theorem c5_outbound_keyed_by_digest_pre (p1 p2 : String)
    (fetchFn : OutboundRequest → FetchResult)
    (hne1 : p1 ≠ "") (hne2 : p2 ≠ "")
    (h1 : strengthIssues p1 = []) (h2 : strengthIssues p2 = [])
    (hpre : (sha1HexJs p1).data.take 5 = (sha1HexJs p2).data.take 5) :
    (handle (postPassword p1) fetchFn).2 = [outboundRequestFor p1] ∧
    (handle (postPassword p1) fetchFn).2 = (handle (postPassword p2) fetchFn).2 ∧
    (outboundRequestFor p1).url =
      "https://api.pwnedpasswords.com/range/" ++
        String.mk ((sha1HexJs p1).data.take 5) := by
  have e1 := handle_calls_of_policy_pass p1 fetchFn hne1 h1
  have e2 := handle_calls_of_policy_pass p2 fetchFn hne2 h2
  have hreq : outboundRequestFor p1 = outboundRequestFor p2 := by
    unfold outboundRequestFor
    rw [hpre]
  exact ⟨e1, by rw [e1, e2, hreq], rfl⟩

/-- Witness for C5: `"Aa1!pass001738"` and `"Aa1!pass001774"` both pass
policy and their SHA-1 digests share the prefix `7259A`, so the handler
issues identical outbound requests for them. -/
theorem c5_outbound_keyed_by_digest_pre_witness :
    (handle (postPassword "Aa1!pass001738") (fun _ => FetchResult.http 200 "")).2 =
      [outboundRequestFor "Aa1!pass001738"] ∧
    (handle (postPassword "Aa1!pass001738") (fun _ => FetchResult.http 200 "")).2 =
      (handle (postPassword "Aa1!pass001774") (fun _ => FetchResult.http 200 "")).2 ∧
    (outboundRequestFor "Aa1!pass001738").url =
      "https://api.pwnedpasswords.com/range/" ++
        String.mk ((sha1HexJs "Aa1!pass001738").data.take 5) :=
  c5_outbound_keyed_by_digest_pre "Aa1!pass001738" "Aa1!pass001774"
    (fun _ => FetchResult.http 200 "")
    (by decide) (by decide) (by decide) (by decide) (by decide)

/-- C6: every password of length at least 12 containing an uppercase
letter, a lowercase letter, a digit, and a character outside
`[A-Za-z0-9]`, whose lowercased form is not on the deny-list, gets zero
issues from the policy evaluator, and control passes to the breach lookup:
the handler issues exactly the one outbound range request. -/
theorem c6_compliant_reaches_lookup (p : String)
    (fetchFn : OutboundRequest → FetchResult)
    (hlen : 12 ≤ jsLength p) (hu : hasUppercase p = true) (hl : hasLowercase p = true)
    (hd : hasDigitChar p = true) (hsp : hasSpecialChar p = true)
    (hc : commonPasswords.contains (toLowerJs p) = false) :
    strengthIssues p = [] ∧
    (handle (postPassword p) fetchFn).2 = [outboundRequestFor p] := by
  have hne : p ≠ "" := by
    intro he
    rw [he] at hlen
    exact absurd hlen (by decide)
  have hc' : toLowerJs p ∉ commonPasswords := by simpa using hc
  have hz : strengthIssues p = [] := by
    unfold strengthIssues
    simp [hu, hl, hd, hsp, hc', Nat.not_lt.mpr hlen]
  exact ⟨hz, handle_calls_of_policy_pass p fetchFn hne hz⟩

/-- Witness for C6 at the compliant password `"Xy9!abcdefgh"`. -/
theorem c6_compliant_reaches_lookup_witness :
    strengthIssues "Xy9!abcdefgh" = [] ∧
    (handle (postPassword "Xy9!abcdefgh") (fun _ => FetchResult.http 200 "")).2 =
      [outboundRequestFor "Xy9!abcdefgh"] :=
  c6_compliant_reaches_lookup "Xy9!abcdefgh" (fun _ => FetchResult.http 200 "")
    (by decide) (by decide) (by decide) (by decide) (by decide) (by decide)
